import Mathlib

/-
  Shallow embedding of `custom_components/omnilogic_local/climate.py`
  (the OmniLogicClimateEntity adapter) and proofs about its behaviour.

  Machine state visible to one adapter instance is collected in
  `ClimateEntityState`: the cached device record for the virtual heater
  (`data`), the parent body-of-water telemetry, the system unit setting,
  the coordinator device tree restricted to heater equipment, and the
  write-only `_hvac_mode` instance attribute.  Commands are embedded as
  functions from state to an outcome record carrying the possibly raised
  exception, the post-call state, the trace of external API calls issued,
  and the log lines emitted.
-/

/-- Home Assistant HVACMode enum (the domain of `async_set_hvac_mode`). -/
inductive HVACMode
  | off
  | heat
  | cool
  | heat_cool
  | auto
  | dry
  | fan_only
deriving DecidableEq, Repr

/-- String value of each HVACMode member, as in Home Assistant. -/
def HVACMode.pyStr : HVACMode → String
  | .off => "off"
  | .heat => "heat"
  | .cool => "cool"
  | .heat_cool => "heat_cool"
  | .auto => "auto"
  | .dry => "dry"
  | .fan_only => "fan_only"

/-- Home Assistant HVACAction enum (codomain of the `hvac_action` property). -/
inductive HVACAction
  | off
  | preheating
  | heating
  | cooling
  | drying
  | fan
  | idle
  | defrosting
deriving DecidableEq, Repr

/-- Static configuration of the virtual heater (`data.msp_config`). -/
structure HeaterMspConfig where
  name : String
  min_temp : Int
  max_temp : Int
  solar_set_point : Int
deriving DecidableEq, Repr

/-- Cached telemetry of the virtual heater (`data.telemetry`). -/
structure HeaterTelemetry where
  current_set_point : Int
  enabled : Bool
deriving DecidableEq, Repr

/-- The cached device record for the virtual heater (`EntityIndexHeater`). -/
structure EntityIndexHeater where
  msp_config : HeaterMspConfig
  telemetry : HeaterTelemetry
deriving DecidableEq, Repr

/-- Modelled from the spec: the heater-equipment telemetry state enum and its
`pretty()` rendering live in the external `pyomnilogic_local` library, not under
src/; the spec only requires "a human-readable state string" (section 4.2). -/
inductive HeaterEquipState
  | off
  | paused
  | running
deriving DecidableEq, Repr

/-- Modelled from the spec: human-readable rendering of the equipment state. -/
def HeaterEquipState.pretty : HeaterEquipState → String
  | .off => "Off"
  | .paused => "Paused"
  | .running => "Running"

/-- Static configuration of one physical heating element. -/
structure HeaterEquipMspConfig where
  name : String
  enabled : Bool
  bow_id : Nat
deriving DecidableEq, Repr

/-- Telemetry of one physical heating element. -/
structure HeaterEquipTelemetry where
  state : HeaterEquipState
  temp : Int
deriving DecidableEq, Repr

/-- The cached device record for one heating element (`EntityIndexHeaterEquip`). -/
structure EntityIndexHeaterEquip where
  msp_config : HeaterEquipMspConfig
  telemetry : HeaterEquipTelemetry
deriving DecidableEq, Repr

/-- Everything one `OmniLogicClimateEntity` instance can observe or mutate:
its identifying ids, the shared cached device tree slices it touches, the
system unit setting, and the `_hvac_mode` instance attribute written by
`async_set_hvac_mode`. -/
structure ClimateEntityState where
  bow_id : Nat
  system_id : Nat
  heater_equipment_ids : List Nat
  data : EntityIndexHeater
  bow_water_temp : Int
  units : String
  coordinator_data : List (Nat × EntityIndexHeaterEquip)
  hvac_mode_attr : Option HVACMode
deriving DecidableEq, Repr

/-- `temperature_unit` property: Celsius when the system config units are
"Metric", Fahrenheit otherwise. -/
def temperature_unit (s : ClimateEntityState) : String :=
  if s.units = "Metric" then "°C" else "°F"

/-- `min_temp` property. -/
def min_temp (s : ClimateEntityState) : Int :=
  s.data.msp_config.min_temp

/-- `max_temp` property. -/
def max_temp (s : ClimateEntityState) : Int :=
  s.data.msp_config.max_temp

/-- `target_temperature` property. -/
def target_temperature (s : ClimateEntityState) : Int :=
  s.data.telemetry.current_set_point

/-- `current_temperature` property: the parent body-of-water water_temp,
with the sentinel -1 mapped to None. -/
def current_temperature (s : ClimateEntityState) : Option Int :=
  let current_temp := s.bow_water_temp
  if current_temp ≠ -1 then some current_temp else none

/-- `hvac_mode` property. -/
def hvac_mode (s : ClimateEntityState) : HVACMode :=
  if s.data.telemetry.enabled then HVACMode.heat else HVACMode.off

/-- `hvac_action` property. -/
def hvac_action (s : ClimateEntityState) : HVACAction :=
  if hvac_mode s = HVACMode.heat then HVACAction.heating else HVACAction.off

/-- `current_operation` property (STATE_ON / STATE_OFF strings). -/
def current_operation (s : ClimateEntityState) : String :=
  if s.data.telemetry.enabled then "on" else "off"

/-- A sample heater record used to instantiate universally quantified
theorems at concrete inputs. -/
def sampleHeater : EntityIndexHeater :=
  { msp_config := { name := "Heater", min_temp := 18, max_temp := 40, solar_set_point := 32 }
    telemetry := { current_set_point := 28, enabled := true } }

/-- A sample adapter state with the heater enabled and no equipment. -/
def sampleState : ClimateEntityState :=
  { bow_id := 1
    system_id := 2
    heater_equipment_ids := []
    data := sampleHeater
    bow_water_temp := 25
    units := "Metric"
    coordinator_data := []
    hvac_mode_attr := none }

/-- Claim C1: `hvac_mode` is HEAT and `hvac_action` is HEATING exactly when the
cached telemetry enabled flag is true, OFF/OFF when it is false, and no other
mode or action value is ever returned. -/
theorem c1_hvac_mode_action_of_enabled (s : ClimateEntityState) :
    (s.data.telemetry.enabled = true →
      hvac_mode s = HVACMode.heat ∧ hvac_action s = HVACAction.heating)
    ∧ (s.data.telemetry.enabled = false →
      hvac_mode s = HVACMode.off ∧ hvac_action s = HVACAction.off)
    ∧ (hvac_mode s = HVACMode.heat ∨ hvac_mode s = HVACMode.off)
    ∧ (hvac_action s = HVACAction.heating ∨ hvac_action s = HVACAction.off) := by
  cases h : s.data.telemetry.enabled <;>
    simp [hvac_mode, hvac_action, h]

/-- Witness for C1 at a concrete enabled state. -/
theorem c1_hvac_mode_action_of_enabled_witness :
    hvac_mode sampleState = HVACMode.heat ∧ hvac_action sampleState = HVACAction.heating :=
  (c1_hvac_mode_action_of_enabled sampleState).1 rfl

/-- Claim C5: `current_temperature` is None exactly when the parent
body-of-water raw water temperature is the sentinel -1, and returns the raw
value unchanged otherwise. -/
theorem c5_current_temperature_sentinel (s : ClimateEntityState) :
    (current_temperature s = none ↔ s.bow_water_temp = -1)
    ∧ (s.bow_water_temp ≠ -1 → current_temperature s = some s.bow_water_temp) := by
  unfold current_temperature
  by_cases h : s.bow_water_temp = -1 <;> simp [h]

/-- Witness for C5 at a concrete non-sentinel temperature. -/
theorem c5_current_temperature_sentinel_witness :
    current_temperature sampleState = some sampleState.bow_water_temp :=
  (c5_current_temperature_sentinel sampleState).2 (by decide)

/-- ATTR_TEMPERATURE, the kwargs key read by `async_set_temperature`. -/
def ATTR_TEMPERATURE : String := "temperature"

/-- Python int() applied to a rational: truncation toward zero. -/
def pyInt (q : ℚ) : Int :=
  q.num.tdiv (q.den : ℤ)

/-- Lookup in a Python-dict-like keyword-argument list. -/
def kwargsGet (kwargs : List (String × ℚ)) (k : String) : Option ℚ :=
  (kwargs.find? (fun p => p.1 = k)).map Prod.snd

/-- Modelled from the spec: `OmniLogicEntity.set_telemetry` is repository code
not under src/.  Per section 4.3 of the spec it "optimistically overwrite[s]
the corresponding field(s) in the locally cached telemetry record"; here for
the call `set_telemetry(\x7b"current_set_point": v\x7d)`. -/
def set_telemetry_set_point (s : ClimateEntityState) (v : Int) : ClimateEntityState :=
  { s with data := { s.data with telemetry := { s.data.telemetry with current_set_point := v } } }

/-- Modelled from the spec: `OmniLogicEntity.set_telemetry` is repository code
not under src/.  Per section 4.3 the calls `set_telemetry(\x7b"enabled": "yes"\x7d)`
and `set_telemetry(\x7b"enabled": "no"\x7d)` "set local telemetry enabled flag to
truthy" respectively "falsy". -/
def set_telemetry_enabled (s : ClimateEntityState) (v : Bool) : ClimateEntityState :=
  { s with data := { s.data with telemetry := { s.data.telemetry with enabled := v } } }

/-- One request issued to the external command API (`coordinator.omni_api`). -/
inductive ApiCall
  | async_set_heater (bow_id : Nat) (system_id : Nat) (temperature : Int) (unit : String)
  | async_set_heater_enable (bow_id : Nat) (system_id : Nat) (enabled : Bool)
deriving DecidableEq, Repr

/-- Exceptions a command handler can raise: a Python KeyError from kwargs
indexing, or a failure raised by the external command API. -/
inductive PyError
  | keyError (key : String)
  | omniApiError
deriving DecidableEq, Repr

/-- Result of running one command handler: the exception if one propagated
(`err`), the adapter state when the handler finished or the exception left it
(`state`), the external API requests issued (`calls`), the log lines emitted
(`logs`), and whether `async_write_ha_state` ran (`wrote_ha_state`). -/
structure CmdOutcome where
  err : Option PyError
  state : ClimateEntityState
  calls : List ApiCall
  logs : List String
  wrote_ha_state : Bool
deriving DecidableEq, Repr

/-- `async_set_temperature`.  The `api_ok` flag is the oracle for whether the
awaited external `async_set_heater` call succeeds or raises.  Argument
evaluation order follows Python: `kwargs[ATTR_TEMPERATURE]` is read (raising
KeyError if absent) before the external call is issued, and the cached
set point is overwritten only after the external call returns. -/
def async_set_temperature (api_ok : Bool) (kwargs : List (String × ℚ))
    (s : ClimateEntityState) : CmdOutcome :=
  match kwargsGet kwargs ATTR_TEMPERATURE with
  | none =>
      { err := some (PyError.keyError ATTR_TEMPERATURE)
        state := s
        calls := []
        logs := []
        wrote_ha_state := false }
  | some t =>
      if api_ok then
        { err := none
          state := set_telemetry_set_point s (pyInt t)
          calls := [ApiCall.async_set_heater s.bow_id s.system_id (pyInt t) (temperature_unit s)]
          logs := []
          wrote_ha_state := false }
      else
        { err := some PyError.omniApiError
          state := s
          calls := [ApiCall.async_set_heater s.bow_id s.system_id (pyInt t) (temperature_unit s)]
          logs := []
          wrote_ha_state := false }

/-- `async_set_hvac_mode`.  Note that in both recognized branches the source
assigns `self._hvac_mode` BEFORE awaiting the external call, so that
attribute write survives an external failure; the cached telemetry is only
overwritten after the call succeeds.  Unrecognized modes log an error and
return without contacting the API or touching any state. -/
def async_set_hvac_mode (api_ok : Bool) (hm : HVACMode)
    (s : ClimateEntityState) : CmdOutcome :=
  if hm = HVACMode.heat then
    let s1 := { s with hvac_mode_attr := some HVACMode.heat }
    if api_ok then
      { err := none
        state := set_telemetry_enabled s1 true
        calls := [ApiCall.async_set_heater_enable s.bow_id s.system_id true]
        logs := []
        wrote_ha_state := true }
    else
      { err := some PyError.omniApiError
        state := s1
        calls := [ApiCall.async_set_heater_enable s.bow_id s.system_id true]
        logs := []
        wrote_ha_state := false }
  else if hm = HVACMode.off then
    let s1 := { s with hvac_mode_attr := some HVACMode.off }
    if api_ok then
      { err := none
        state := set_telemetry_enabled s1 false
        calls := [ApiCall.async_set_heater_enable s.bow_id s.system_id false]
        logs := []
        wrote_ha_state := true }
    else
      { err := some PyError.omniApiError
        state := s1
        calls := [ApiCall.async_set_heater_enable s.bow_id s.system_id false]
        logs := []
        wrote_ha_state := false }
  else
    { err := none
      state := s
      calls := []
      logs := ["Unrecognized hvac mode: " ++ hm.pyStr]
      wrote_ha_state := false }

/-- Claim C2: after a successful `async_set_hvac_mode` with HEAT an immediate
read of `hvac_mode` returns HEAT, and after a successful call with OFF it
returns OFF, without any external refresh. -/
theorem c2_set_hvac_mode_immediate_read (s : ClimateEntityState) :
    ((async_set_hvac_mode true HVACMode.heat s).err = none
      ∧ hvac_mode (async_set_hvac_mode true HVACMode.heat s).state = HVACMode.heat)
    ∧ ((async_set_hvac_mode true HVACMode.off s).err = none
      ∧ hvac_mode (async_set_hvac_mode true HVACMode.off s).state = HVACMode.off) := by
  simp [async_set_hvac_mode, set_telemetry_enabled, hvac_mode]

/-- Claim C3: any mode other than HEAT and OFF makes `async_set_hvac_mode`
issue no external call, leave the whole adapter state unchanged, emit one
diagnostic log line, and return without an exception. -/
theorem c3_invalid_mode_noop (api_ok : Bool) (hm : HVACMode) (s : ClimateEntityState)
    (h1 : hm ≠ HVACMode.heat) (h2 : hm ≠ HVACMode.off) :
    async_set_hvac_mode api_ok hm s =
      { err := none
        state := s
        calls := []
        logs := ["Unrecognized hvac mode: " ++ hm.pyStr]
        wrote_ha_state := false } := by
  simp [async_set_hvac_mode, h1, h2]

/-- Witness for C3 at the concrete mode COOL. -/
theorem c3_invalid_mode_noop_witness :
    async_set_hvac_mode true HVACMode.cool sampleState =
      { err := none
        state := sampleState
        calls := []
        logs := ["Unrecognized hvac mode: cool"]
        wrote_ha_state := false } :=
  c3_invalid_mode_noop true HVACMode.cool sampleState (by decide) (by decide)

/-- Counterexample to claim C4 as stated: when the external call raised, the
entity state is NOT left entirely unchanged, because `async_set_hvac_mode`
assigns the `_hvac_mode` instance attribute before awaiting the external
call (climate.py line 132). -/
theorem c4_counterexample_hvac_attr_mutated_on_failure :
    (async_set_hvac_mode false HVACMode.heat sampleState).err = some PyError.omniApiError
    ∧ (async_set_hvac_mode false HVACMode.heat sampleState).state ≠ sampleState
    ∧ (async_set_hvac_mode false HVACMode.heat sampleState).state.hvac_mode_attr
        = some HVACMode.heat := by
  refine ⟨rfl, ?_, rfl⟩
  intro h
  have := congrArg ClimateEntityState.hvac_mode_attr h
  simp [async_set_hvac_mode, sampleState] at this

/-- Claim C4 (amended): the locally cached telemetry is mutated only after the
external command call succeeds.  If the external call raises, both commands
leave the cached telemetry and every read-visible field unchanged;
`async_set_temperature` leaves the state entirely unchanged, while
`async_set_hvac_mode` has already set the write-only `_hvac_mode` attribute
(the only deviation from the claim as stated). -/
theorem c4_amended_atomicity_on_failure (s : ClimateEntityState) (hm : HVACMode)
    (kwargs : List (String × ℚ)) :
    ((async_set_temperature false kwargs s).err ≠ none
      ∧ (async_set_temperature false kwargs s).state = s)
    ∧ ((hm = HVACMode.heat ∨ hm = HVACMode.off) →
        ((async_set_hvac_mode false hm s).err = some PyError.omniApiError
          ∧ (async_set_hvac_mode false hm s).state.data.telemetry = s.data.telemetry
          ∧ { (async_set_hvac_mode false hm s).state with hvac_mode_attr := s.hvac_mode_attr } = s)) := by
  constructor
  · unfold async_set_temperature
    cases h : kwargsGet kwargs ATTR_TEMPERATURE <;> simp
  · rintro (rfl | rfl) <;> simp [async_set_hvac_mode]

/-- Witness for the amended C4 at a concrete state and mode. -/
theorem c4_amended_atomicity_on_failure_witness :
    (async_set_hvac_mode false HVACMode.off sampleState).err = some PyError.omniApiError
    ∧ (async_set_hvac_mode false HVACMode.off sampleState).state.data.telemetry
        = sampleState.data.telemetry
    ∧ { (async_set_hvac_mode false HVACMode.off sampleState).state with
          hvac_mode_attr := sampleState.hvac_mode_attr } = sampleState :=
  (c4_amended_atomicity_on_failure sampleState HVACMode.off []).2 (Or.inr rfl)

/-- Claim C6: `async_set_temperature` truncates the supplied fractional value
toward zero, transmits that integer to the external API, caches the very same
integer as the new set point, and consults neither min_temp nor max_temp
(replacing the configured bounds by arbitrary values changes nothing in the
issued call). -/
theorem c6_set_temperature_truncates (s : ClimateEntityState)
    (kwargs : List (String × ℚ)) (t : ℚ)
    (h : kwargsGet kwargs ATTR_TEMPERATURE = some t) :
    (async_set_temperature true kwargs s).err = none
    ∧ (async_set_temperature true kwargs s).calls
        = [ApiCall.async_set_heater s.bow_id s.system_id (pyInt t) (temperature_unit s)]
    ∧ (async_set_temperature true kwargs s).state.data.telemetry.current_set_point = pyInt t
    ∧ ∀ lo hi : Int,
        (async_set_temperature true kwargs
          { s with data := { s.data with msp_config :=
              { s.data.msp_config with min_temp := lo, max_temp := hi } } }).calls
        = (async_set_temperature true kwargs s).calls := by
  refine ⟨?_, ?_, ?_, ?_⟩ <;>
    simp [async_set_temperature, h, set_telemetry_set_point, temperature_unit]

/-- Witness for C6 with the concrete input 21.7: the transmitted and cached
value is 21 (truncation, not rounding). -/
theorem c6_set_temperature_truncates_witness :
    (async_set_temperature true [("temperature", (21.7 : ℚ))] sampleState).err = none
    ∧ (async_set_temperature true [("temperature", (21.7 : ℚ))] sampleState).calls
        = [ApiCall.async_set_heater 1 2 21 "°C"]
    ∧ (async_set_temperature true [("temperature", (21.7 : ℚ))]
        sampleState).state.data.telemetry.current_set_point = 21 := by
  have h217 : pyInt (21.7 : ℚ) = 21 := by
    unfold pyInt
    norm_num
    decide
  have hmain := c6_set_temperature_truncates sampleState
    [("temperature", (21.7 : ℚ))] (21.7 : ℚ)
    (by simp [kwargsGet, ATTR_TEMPERATURE])
  refine ⟨hmain.1, ?_, ?_⟩
  · rw [hmain.2.1, h217]
    rfl
  · rw [hmain.2.2.1, h217]

/-- Claim C9: calling `async_set_temperature` with kwargs lacking the
"temperature" key raises a KeyError before any external API call is made and
before any cached telemetry is mutated. -/
theorem c9_missing_temperature_key_error (api_ok : Bool)
    (kwargs : List (String × ℚ)) (s : ClimateEntityState)
    (h : kwargsGet kwargs ATTR_TEMPERATURE = none) :
    async_set_temperature api_ok kwargs s =
      { err := some (PyError.keyError ATTR_TEMPERATURE)
        state := s
        calls := []
        logs := []
        wrote_ha_state := false } := by
  simp [async_set_temperature, h]

/-- Witness for C9 with empty kwargs. -/
theorem c9_missing_temperature_key_error_witness :
    async_set_temperature true [] sampleState =
      { err := some (PyError.keyError ATTR_TEMPERATURE)
        state := sampleState
        calls := []
        logs := []
        wrote_ha_state := false } :=
  c9_missing_temperature_key_error true [] sampleState rfl

/-- A value stored in the extra-state-attribute dict (str | int | bool in the
source). -/
inductive AttrVal
  | str (v : String)
  | int (v : Int)
  | nat (v : Nat)
  | bool (v : Bool)
deriving DecidableEq, Repr

/-- A Python dict with string keys, embedded as an insertion-ordered
association list without duplicate keys among inserts. -/
abbrev AttrDict := List (String × AttrVal)

/-- Python dict update of one key: overwrite in place if the key exists,
append otherwise. -/
def dictSet (d : AttrDict) (k : String) (v : AttrVal) : AttrDict :=
  if d.any (fun p => p.1 = k) then
    d.map (fun p => if p.1 = k then (k, v) else p)
  else
    d ++ [(k, v)]

/-- Python `d1 | d2`: all updates of `d2` applied to `d1` in order. -/
def dictMerge (d1 d2 : AttrDict) : AttrDict :=
  d2.foldl (fun acc p => dictSet acc p.1 p.2) d1

/-- Lookup, mirroring Python `d[k]` returning None when absent. -/
def dictGet (d : AttrDict) (k : String) : Option AttrVal :=
  (d.find? (fun p => p.1 = k)).map Prod.snd

/-- The key list of a dict. -/
def dictKeys (d : AttrDict) : List String :=
  d.map Prod.fst

/-- Modelled from the spec: the base class `OmniLogicEntity.extra_state_attributes`
is repository code not under src/; section 8 of the spec ("absent elements list
yields a dict with just the solar set-point key") fixes it to contribute no
attribute of its own. -/
def super_extra_state_attributes (_s : ClimateEntityState) : AttrDict :=
  []

/-- The five per-element key suffixes appearing in `extra_state_attributes`. -/
def heater_attr_suffixes : List String :=
  ["_enabled", "_system_id", "_bow_id", "_state", "_sensor_temp"]

/-- Python `str.lower` on one character, for the ASCII range the element
names use. -/
def pyLowerChar (c : Char) : Char :=
  if 'A' ≤ c ∧ c ≤ 'Z' then Char.ofNat (c.toNat + 32) else c

/-- Python `str.lower` (ASCII range). -/
def pyLower (s : String) : String :=
  String.mk (s.data.map pyLowerChar)

/-- The five attributes contributed for one heating element, keyed by the
lower-cased element name. -/
def heaterEquipGroup (system_id : Nat) (he : EntityIndexHeaterEquip) : AttrDict :=
  let pfx := "omni_heater_" ++ pyLower he.msp_config.name
  [ (pfx ++ "_enabled", AttrVal.bool he.msp_config.enabled),
    (pfx ++ "_system_id", AttrVal.nat system_id),
    (pfx ++ "_bow_id", AttrVal.nat he.msp_config.bow_id),
    (pfx ++ "_state", AttrVal.str he.telemetry.state.pretty),
    (pfx ++ "_sensor_temp", AttrVal.int he.telemetry.temp) ]

/-- `self.coordinator.data[system_id]` restricted to heater equipment; None
models the KeyError raised on a missing id. -/
def lookupEquip (s : ClimateEntityState) (system_id : Nat) : Option EntityIndexHeaterEquip :=
  (s.coordinator_data.find? (fun p => p.1 = system_id)).map Prod.snd

/-- The `for system_id in self.heater_equipment_ids` loop of
`extra_state_attributes`; None models a KeyError escaping the loop. -/
def extraAttrsLoop (s : ClimateEntityState) : AttrDict → List Nat → Option AttrDict
  | acc, [] => some acc
  | acc, system_id :: rest =>
    match lookupEquip s system_id with
    | none => none
    | some he => extraAttrsLoop s (dictMerge acc (heaterEquipGroup system_id he)) rest

/-- `extra_state_attributes` property. -/
def extra_state_attributes (s : ClimateEntityState) : Option AttrDict :=
  extraAttrsLoop s
    (dictMerge (super_extra_state_attributes s)
      [("solar_set_point", AttrVal.int s.data.msp_config.solar_set_point)])
    s.heater_equipment_ids

/-- `dictSet` leaves the key list unchanged when it overwrites, appends the
key otherwise; membership-wise keys grow by at most `k`. -/
theorem mem_dictKeys_dictSet (d : AttrDict) (k0 : String) (v : AttrVal) (k : String) :
    k ∈ dictKeys (dictSet d k0 v) ↔ k ∈ dictKeys d ∨ k = k0 := by
  unfold dictSet
  by_cases h : d.any (fun p => p.1 = k0)
  · simp only [h, if_true]
    have hkeys : dictKeys (d.map (fun p => if p.1 = k0 then (k0, v) else p)) = dictKeys d := by
      unfold dictKeys
      rw [List.map_map]
      apply List.map_congr_left
      intro p _
      by_cases hp : p.1 = k0 <;> simp [hp]
    rw [hkeys]
    rcases List.any_eq_true.mp h with ⟨p, hp, hpk⟩
    have hk0 : k0 ∈ dictKeys d := by
      have := of_decide_eq_true hpk
      exact this ▸ List.mem_map_of_mem Prod.fst hp
    constructor
    · exact Or.inl
    · rintro (hk | rfl)
      · exact hk
      · exact hk0
  · simp [h, dictKeys]

/-- Keys of a merge are the union of the keys of the two dicts. -/
theorem mem_dictKeys_dictMerge (d2 : AttrDict) :
    ∀ (d1 : AttrDict) (k : String),
      k ∈ dictKeys (dictMerge d1 d2) ↔ k ∈ dictKeys d1 ∨ k ∈ dictKeys d2 := by
  induction d2 with
  | nil => intro d1 k; simp [dictMerge, dictKeys]
  | cons p rest ih =>
    intro d1 k
    have hstep : dictMerge d1 (p :: rest) = dictMerge (dictSet d1 p.1 p.2) rest := by
      simp [dictMerge]
    rw [hstep, ih, mem_dictKeys_dictSet]
    constructor
    · rintro ((hk | rfl) | hk)
      · exact Or.inl hk
      · exact Or.inr (by simp [dictKeys])
      · exact Or.inr (by simp [dictKeys]; right; exact (by simpa [dictKeys] using hk))
    · rintro (hk | hk)
      · exact Or.inl (Or.inl hk)
      · rcases (by simpa [dictKeys] using hk : k = p.1 ∨ k ∈ dictKeys rest) with h | h
        · exact Or.inl (Or.inr h)
        · exact Or.inr h

/-- Membership in the key group of one heating element. -/
theorem mem_dictKeys_heaterEquipGroup (system_id : Nat) (he : EntityIndexHeaterEquip)
    (k : String) :
    k ∈ dictKeys (heaterEquipGroup system_id he) ↔
      ∃ sfx ∈ heater_attr_suffixes,
        k = ("omni_heater_" ++ pyLower he.msp_config.name) ++ sfx := by
  simp only [heaterEquipGroup, dictKeys, heater_attr_suffixes, List.map_cons, List.map_nil,
    List.mem_cons, List.not_mem_nil, or_false]
  constructor
  · rintro (h | h | h | h | h) <;> exact ⟨_, by simp, h⟩
  · rintro ⟨sfx, hsfx, rfl⟩
    rcases hsfx with rfl | rfl | rfl | rfl | rfl <;> simp

/-- Characterization of the keys accumulated by the equipment loop of
`extra_state_attributes`. -/
theorem extraAttrsLoop_mem_keys (s : ClimateEntityState) :
    ∀ (ids : List Nat) (acc d : AttrDict), extraAttrsLoop s acc ids = some d →
      ∀ k, k ∈ dictKeys d ↔
        (k ∈ dictKeys acc ∨
          ∃ sid ∈ ids, ∃ he, lookupEquip s sid = some he
            ∧ k ∈ dictKeys (heaterEquipGroup sid he)) := by
  intro ids
  induction ids with
  | nil =>
    intro acc d h k
    simp only [extraAttrsLoop, Option.some_inj] at h
    subst h
    simp
  | cons sid rest ih =>
    intro acc d h k
    unfold extraAttrsLoop at h
    cases hlook : lookupEquip s sid with
    | none =>
      rw [hlook] at h
      cases h
    | some he =>
      rw [hlook] at h
      rw [ih _ _ h k, mem_dictKeys_dictMerge]
      constructor
      · rintro ((hk | hk) | ⟨sid2, hsid2, he2, hl2, hk2⟩)
        · exact Or.inl hk
        · exact Or.inr ⟨sid, by simp, he, hlook, hk⟩
        · exact Or.inr ⟨sid2, by simp [hsid2], he2, hl2, hk2⟩
      · rintro (hk | ⟨sid2, hsid2, he2, hl2, hk2⟩)
        · exact Or.inl (Or.inl hk)
        · rcases List.mem_cons.mp hsid2 with rfl | hmem
          · rw [hlook] at hl2
            cases hl2
            exact Or.inl (Or.inr hk2)
          · exact Or.inr ⟨sid2, hmem, he2, hl2, hk2⟩

/-- Claim C7: the extended attributes hold, besides the solar set point, one
five-key group per resolved heating element, every key of which is prefixed
by the lower-cased element name; with no configured elements the result is
exactly the singleton solar set-point dict. -/
theorem c7_extra_state_attributes_shape (s : ClimateEntityState) :
    (s.heater_equipment_ids = [] →
      extra_state_attributes s
        = some [("solar_set_point", AttrVal.int s.data.msp_config.solar_set_point)])
    ∧ ∀ d, extra_state_attributes s = some d →
        (∀ sid ∈ s.heater_equipment_ids, ∀ he, lookupEquip s sid = some he →
          ∀ sfx ∈ heater_attr_suffixes,
            (("omni_heater_" ++ pyLower he.msp_config.name) ++ sfx) ∈ dictKeys d)
        ∧ ∀ k ∈ dictKeys d,
            k = "solar_set_point"
            ∨ ∃ sid ∈ s.heater_equipment_ids, ∃ he, lookupEquip s sid = some he ∧
                ∃ sfx ∈ heater_attr_suffixes,
                  k = ("omni_heater_" ++ pyLower he.msp_config.name) ++ sfx := by
  have hbase : dictMerge (super_extra_state_attributes s)
      [("solar_set_point", AttrVal.int s.data.msp_config.solar_set_point)]
      = [("solar_set_point", AttrVal.int s.data.msp_config.solar_set_point)] := by
    simp [dictMerge, dictSet, super_extra_state_attributes]
  constructor
  · intro hids
    unfold extra_state_attributes
    rw [hids, hbase]
    simp [extraAttrsLoop]
  · intro d hd
    unfold extra_state_attributes at hd
    rw [hbase] at hd
    have hkeys := extraAttrsLoop_mem_keys s s.heater_equipment_ids _ d hd
    constructor
    · intro sid hsid he hhe sfx hsfx
      refine (hkeys _).mpr (Or.inr ⟨sid, hsid, he, hhe, ?_⟩)
      exact (mem_dictKeys_heaterEquipGroup sid he _).mpr ⟨sfx, hsfx, rfl⟩
    · intro k hk
      rcases (hkeys k).mp hk with hsolar | ⟨sid, hsid, he, hhe, hgk⟩
      · left
        simpa [dictKeys] using hsolar
      · right
        rcases (mem_dictKeys_heaterEquipGroup sid he k).mp hgk with ⟨sfx, hsfx, rfl⟩
        exact ⟨sid, hsid, he, hhe, sfx, hsfx, rfl⟩

/-- Witness for C7 at a concrete state with no heating elements. -/
theorem c7_extra_state_attributes_shape_witness :
    extra_state_attributes sampleState = some [("solar_set_point", AttrVal.int 32)] :=
  (c7_extra_state_attributes_shape sampleState).1 rfl

/-- No two distinct members of `heater_attr_suffixes` are suffixes of one
another, so a key determines its suffix. -/
theorem heater_attr_suffixes_mutual :
    ∀ s1 ∈ heater_attr_suffixes, ∀ s2 ∈ heater_attr_suffixes,
      (s1.data <:+ s2.data ∨ s2.data <:+ s1.data) → s1 = s2 := by
  decide

/-- An attribute key decomposes uniquely into its name part and its suffix. -/
theorem heater_key_inj (p1 p2 s1 s2 : String)
    (h1 : s1 ∈ heater_attr_suffixes) (h2 : s2 ∈ heater_attr_suffixes)
    (h : p1 ++ s1 = p2 ++ s2) : s1 = s2 ∧ p1 = p2 := by
  have hd : p1.data ++ s1.data = p2.data ++ s2.data := by
    have hdata := congrArg String.data h
    simpa [String.data_append] using hdata
  have hsfx1 : s1.data <:+ p1.data ++ s1.data := List.suffix_append p1.data s1.data
  have hsfx2 : s2.data <:+ p1.data ++ s1.data := hd ▸ List.suffix_append p2.data s2.data
  have hor := List.suffix_or_suffix_of_suffix hsfx1 hsfx2
  have hs : s1 = s2 := heater_attr_suffixes_mutual s1 h1 s2 h2 hor
  subst hs
  refine ⟨rfl, ?_⟩
  have hp : p1.data = p2.data := List.append_cancel_right hd
  exact String.ext hp

/-- Cancellation of the fixed "omni_heater_" key front part. -/
theorem omni_heater_name_inj (l1 l2 : String)
    (h : ("omni_heater_" ++ l1 : String) = "omni_heater_" ++ l2) : l1 = l2 := by
  have hd := congrArg String.data h
  simp only [String.data_append] at hd
  have hc := List.append_cancel_left hd
  exact String.ext hc

/-- Claim C8 (amended): the attribute-key groups of two heating elements are
disjoint provided the lower-cased element names differ; equality of lower-cased
names (which distinct elements can have) makes the groups collide. -/
theorem c8_amended_distinct_lower_names_disjoint
    (sid1 sid2 : Nat) (he1 he2 : EntityIndexHeaterEquip)
    (hname : pyLower he1.msp_config.name ≠ pyLower he2.msp_config.name) :
    ∀ k ∈ dictKeys (heaterEquipGroup sid1 he1), k ∉ dictKeys (heaterEquipGroup sid2 he2) := by
  intro k hk1 hk2
  rcases (mem_dictKeys_heaterEquipGroup sid1 he1 k).mp hk1 with ⟨s1, hs1, rfl⟩
  rcases (mem_dictKeys_heaterEquipGroup sid2 he2 _).mp hk2 with ⟨s2, hs2, heq⟩
  have hinj := heater_key_inj _ _ s1 s2 hs1 hs2 heq
  exact hname (omni_heater_name_inj _ _ hinj.2)

/-- A gas heating element, for concrete instantiations. -/
def eqGas : EntityIndexHeaterEquip :=
  { msp_config := { name := "Gas", enabled := true, bow_id := 1 }
    telemetry := { state := HeaterEquipState.running, temp := 52 } }

/-- A solar heating element, for concrete instantiations. -/
def eqSolar : EntityIndexHeaterEquip :=
  { msp_config := { name := "Solar", enabled := true, bow_id := 1 }
    telemetry := { state := HeaterEquipState.off, temp := 50 } }

/-- Witness for the amended C8 at two concretely named elements. -/
theorem c8_amended_distinct_lower_names_disjoint_witness :
    ("omni_heater_gas_enabled" : String) ∉ dictKeys (heaterEquipGroup 8 eqSolar) :=
  c8_amended_distinct_lower_names_disjoint 7 8 eqGas eqSolar (by decide)
    "omni_heater_gas_enabled" (by decide)

/-- A second solar element, distinct from `eqSolar` but with the same name. -/
def eqSolarTwin : EntityIndexHeaterEquip :=
  { msp_config := { name := "Solar", enabled := false, bow_id := 1 }
    telemetry := { state := HeaterEquipState.running, temp := 60 } }

/-- An adapter state configured with two same-named heating elements. -/
def sampleStateDup : ClimateEntityState :=
  { bow_id := 1
    system_id := 2
    heater_equipment_ids := [7, 8]
    data := sampleHeater
    bow_water_temp := 25
    units := "Metric"
    coordinator_data := [(7, eqSolar), (8, eqSolarTwin)]
    hvac_mode_attr := none }

/-- Counterexample to claim C8 as stated: two distinct configured heating
elements sharing the lower-cased name "solar" contribute identical (hence
non-disjoint) key groups, and in the assembled extended attributes the second
element overwrites the sensor temperature of the first (60 replaces 50). -/
theorem c8_counterexample_same_name_collision :
    eqSolar ≠ eqSolarTwin
    ∧ ¬ (∀ k ∈ dictKeys (heaterEquipGroup 7 eqSolar), k ∉ dictKeys (heaterEquipGroup 8 eqSolarTwin))
    ∧ (extra_state_attributes sampleStateDup).map
        (fun d => dictGet d "omni_heater_solar_sensor_temp")
      = some (some (AttrVal.int 60)) := by
  refine ⟨by decide, ?_, by decide⟩
  intro hall
  exact hall "omni_heater_solar_enabled" (by decide) (by decide)

/-- The values of the nine read-path properties. -/
structure PropsSnapshot where
  temperature_unit : String
  min_temp : Int
  max_temp : Int
  target_temperature : Int
  current_temperature : Option Int
  hvac_mode : HVACMode
  hvac_action : HVACAction
  current_operation : String
  extra_state_attributes : Option AttrDict
deriving DecidableEq, Repr

/-- The nine read-path properties evaluated in sequence, each step receiving
and returning the adapter state so that a state-mutating read would be
expressible; the source property bodies contain no assignment, so every step
passes its input state through. -/
def read_all_properties (s0 : ClimateEntityState) : PropsSnapshot × ClimateEntityState :=
  let (u, s1) := (temperature_unit s0, s0)
  let (mn, s2) := (min_temp s1, s1)
  let (mx, s3) := (max_temp s2, s2)
  let (tt, s4) := (target_temperature s3, s3)
  let (ct, s5) := (current_temperature s4, s4)
  let (hm, s6) := (hvac_mode s5, s5)
  let (ha, s7) := (hvac_action s6, s6)
  let (co, s8) := (current_operation s7, s7)
  let (ea, s9) := (extra_state_attributes s8, s8)
  ({ temperature_unit := u
     min_temp := mn
     max_temp := mx
     target_temperature := tt
     current_temperature := ct
     hvac_mode := hm
     hvac_action := ha
     current_operation := co
     extra_state_attributes := ea }, s9)

/-- Claim C10: evaluating every read-path property leaves the shared device
state and all adapter fields unchanged, and each returned value is the pure
projection of the input state. -/
theorem c10_read_path_frame (s : ClimateEntityState) :
    (read_all_properties s).2 = s
    ∧ (read_all_properties s).1 =
        { temperature_unit := temperature_unit s
          min_temp := min_temp s
          max_temp := max_temp s
          target_temperature := target_temperature s
          current_temperature := current_temperature s
          hvac_mode := hvac_mode s
          hvac_action := hvac_action s
          current_operation := current_operation s
          extra_state_attributes := extra_state_attributes s } :=
  ⟨rfl, rfl⟩
